import Mathlib

/-!
Verification of the Thirai-Ulagam media-browsing repository:
a shallow embedding of the Netlify backend dispatcher
(src/netlify/functions/tmdb.js) and of the client-side row loader,
poster-card hover-preview scheduler and hero controller (src/script.js),
together with theorems settling the specification's claims.
-/

/-! ## JavaScript value helpers

The source relies on JS truthiness: for strings read from the query
string or from upstream objects, the empty string, null and undefined
are all falsy.  An absent-or-string value is modelled as
an Option String, and the JS idioms a-or-b and if-a are given by
jsOr and jsTruthyS. -/

/-- JS a-or-b on an optional string: the left operand wins when it is
present and non-empty (truthy), otherwise the default is returned. -/
def jsOr (a : Option String) (b : String) : String :=
  match a with
  | some s => if s = "" then b else s
  | none => b

/-- JS truthiness of an optional string: present and non-empty. -/
def jsTruthyS (a : Option String) : Bool :=
  match a with
  | some s => !(s == "")
  | none => false

/-! ## Backend dispatcher (src/netlify/functions/tmdb.js)

The handler reads query-string parameters, validates by the type
parameter, builds an upstream TMDb URL and performs one fetch.
The upstream service is a parameter (a function from the requested URL to
an UpstreamResult), and the embedding returns, next to the response
envelope, the list of upstream URLs actually fetched, so that
zero-upstream-call claims are statable. -/

/-- The query-string parameters the handler reads
(event.queryStringParameters; each may be absent). -/
structure QS where
  type : Option String := none
  genre : Option String := none
  limit : Option String := none
  movieId : Option String := none
  sort_by : Option String := none
deriving DecidableEq, Repr

/-- Result of the upstream fetch: a 2xx response with its (canonical
JSON) body text, a non-2xx response with status and body text, or a
thrown network/transport error. -/
inductive UpstreamResult where
  | ok (body : String)
  | httpError (status : Nat) (body : String)
  | netError (msg : String)
deriving DecidableEq, Repr

/-- The response envelope the handler returns: statusCode, headers
(absent headers field modelled as the empty list) and body text. -/
structure Envelope where
  statusCode : Nat
  headers : List (String × String)
  body : String
deriving DecidableEq, Repr

/-- JSON.stringify of an object with a single error field. -/
def jsonErr (msg : String) : String :=
  "\x7b\"error\":\"" ++ msg ++ "\"\x7d"

/-- The discover upstream URL built by the handler: URLSearchParams in
insertion order api_key, with_genres, sort_by, page, with page fixed
to 1. -/
def discoverUrl (key wg sb : String) : String :=
  "https://api.themoviedb.org/3/discover/movie?api_key=" ++ key ++
    "&with_genres=" ++ wg ++ "&sort_by=" ++ sb ++ "&page=1"

/-- The movie-videos upstream URL built by the handler. -/
def videosUrl (mid key : String) : String :=
  "https://api.themoviedb.org/3/movie/" ++ mid ++ "/videos?api_key=" ++ key

/-- The movie-details upstream URL built by the handler. -/
def movieUrl (mid key : String) : String :=
  "https://api.themoviedb.org/3/movie/" ++ mid ++ "?api_key=" ++ key

/-- The shared tail of the handler: fetch targetUrl and classify.
resp.ok gives 200 with the decoded body re-serialised (identity on
canonical JSON) and the CORS header appended; non-2xx passes status and
body text through with only the Content-Type headers; a thrown error is
caught and mapped to 500 with the error message (no headers field). -/
def callUpstream (url : String) (upstream : String → UpstreamResult)
    (headers : List (String × String)) : Envelope × List String :=
  match upstream url with
  | .ok body =>
      (⟨200, headers ++ [("Access-Control-Allow-Origin", "*")], body⟩, [url])
  | .httpError s b => (⟨s, headers, b⟩, [url])
  | .netError m => (⟨500, [], jsonErr m⟩, [url])

/-- The body of the handler once the credential check has passed:
type defaults to discover via JS or; discover builds its parameter set
(qs.limit is read in the source but never used in the URL); videos and
movie require a truthy movieId and otherwise return 400 before any
fetch; an unrecognized type returns 400 Unknown type. -/
def handlerWithKey (key : String) (qs : QS)
    (upstream : String → UpstreamResult) : Envelope × List String :=
  let t := jsOr qs.type "discover"
  let headers : List (String × String) := [("Content-Type", "application/json")]
  if t = "discover" then
    callUpstream
      (discoverUrl key (jsOr qs.genre "") (jsOr qs.sort_by "popularity.desc"))
      upstream headers
  else if t = "videos" then
    if jsTruthyS qs.movieId then
      callUpstream (videosUrl (qs.movieId.getD "") key) upstream headers
    else (⟨400, [], jsonErr "movieId required"⟩, [])
  else if t = "movie" then
    if jsTruthyS qs.movieId then
      callUpstream (movieUrl (qs.movieId.getD "") key) upstream headers
    else (⟨400, [], jsonErr "movieId required"⟩, [])
  else (⟨400, [], jsonErr "Unknown type"⟩, [])

/-- exports.handler of src/netlify/functions/tmdb.js: a falsy
TMDB_API_KEY is rejected with 500 before anything else; otherwise the
request is routed by type.  The second component lists the upstream
URLs fetched during the invocation. -/
def handler (apiKey : Option String) (qs : QS)
    (upstream : String → UpstreamResult) : Envelope × List String :=
  if jsTruthyS apiKey then handlerWithKey (apiKey.getD "") qs upstream
  else (⟨500, [], jsonErr "TMDB_API_KEY not set in environment variables"⟩, [])

/-- A query that passes validation and reaches the upstream fetch:
resolved type discover, or videos-or-movie with a truthy movieId. -/
def reachesUpstream (qs : QS) : Bool :=
  let t := jsOr qs.type "discover"
  if t = "discover" then true
  else if t = "videos" then jsTruthyS qs.movieId
  else if t = "movie" then jsTruthyS qs.movieId
  else false

/-- Claim C4 counterexample: with the credential absent, the body the
handler returns is not the spec's literal
error credential not configured object; the code uses its own message.
Status 500 and the absence of an upstream call do hold (see the amended
theorem). -/
theorem credential_missing_body_counterexample :
    (handler none ⟨some "discover", none, none, none, none⟩
        (fun _ => .ok "x")).1.body ≠
      "\x7b\"error\":\"credential not configured\"\x7d" := by
  decide

/-- Claim C4 (amended): if the process-wide credential is absent, every
query of every kind gets statusCode 500 with body
error TMDB_API_KEY not set in environment variables, and no upstream
call is made. -/
theorem credential_missing_500 (qs : QS) (u : String → UpstreamResult) :
    handler none qs u =
      (⟨500, [], jsonErr "TMDB_API_KEY not set in environment variables"⟩, []) :=
  rfl

/-- Claim C10: the limit parameter has no effect on dispatch: two
inbound requests that differ only in limit produce the same upstream
URL list and the same response envelope (the source reads qs.limit but
never uses it). -/
theorem limit_has_no_effect (k : Option String) (qs : QS)
    (l1 l2 : Option String) (u : String → UpstreamResult) :
    handler k ⟨qs.type, qs.genre, l1, qs.movieId, qs.sort_by⟩ u =
      handler k ⟨qs.type, qs.genre, l2, qs.movieId, qs.sort_by⟩ u :=
  rfl

/-- Claim C5: a videos or movie (Details) query whose movieId is absent
returns 400 with body error movieId required and makes zero upstream
calls. -/
theorem videos_details_require_movieId (k : String) (hk : k ≠ "")
    (qs : QS) (u : String → UpstreamResult)
    (htype : qs.type = some "videos" ∨ qs.type = some "movie")
    (hid : qs.movieId = none) :
    handler (some k) qs u = (⟨400, [], jsonErr "movieId required"⟩, []) := by
  rcases htype with h | h <;>
    simp [handler, handlerWithKey, jsOr, jsTruthyS, h, hid, hk]

/-- Claim C5 witness at a concrete query. -/
theorem videos_details_require_movieId_witness :
    handler (some "K") ⟨some "videos", none, none, none, none⟩
        (fun _ => .ok "x") =
      (⟨400, [], jsonErr "movieId required"⟩, []) :=
  videos_details_require_movieId "K" (by decide)
    ⟨some "videos", none, none, none, none⟩ (fun _ => .ok "x")
    (Or.inl rfl) rfl

/-- With a truthy (non-empty, present) credential the handler proceeds
to the routing body. -/
theorem handler_some (k : String) (hk : k ≠ "") (qs : QS)
    (u : String → UpstreamResult) :
    handler (some k) qs u = handlerWithKey k qs u := by
  simp [handler, jsTruthyS, hk]

/-- Whatever the upstream returns, callUpstream records exactly one
fetch of its URL. -/
theorem callUpstream_snd (url : String) (u : String → UpstreamResult)
    (hdr : List (String × String)) : (callUpstream url u hdr).2 = [url] := by
  unfold callUpstream
  rcases u url <;> rfl

/-- Claim C3: for every query that reaches the upstream fetch, if the
upstream returns non-2xx status S with body text B, the handler returns
statusCode exactly S and body exactly B (pass-through), and the headers
of this envelope do not include Access-Control-Allow-Origin. -/
theorem upstream_passthrough (k : String) (hk : k ≠ "") (qs : QS)
    (S : Nat) (B : String) (hq : reachesUpstream qs = true) :
    (handler (some k) qs (fun _ => .httpError S B)).1.statusCode = S ∧
    (handler (some k) qs (fun _ => .httpError S B)).1.body = B ∧
    (∀ v, ("Access-Control-Allow-Origin", v) ∉
      (handler (some k) qs (fun _ => .httpError S B)).1.headers) := by
  rw [handler_some k hk]
  simp only [handlerWithKey, reachesUpstream] at hq ⊢
  split_ifs at hq ⊢ <;> simp_all [callUpstream]

/-- Claim C3 witness at a concrete valid query and upstream error. -/
theorem upstream_passthrough_witness :
    (handler (some "K") ⟨some "discover", some "878", none, none, none⟩
        (fun _ => .httpError 404 "nope")).1.statusCode = 404 ∧
    (handler (some "K") ⟨some "discover", some "878", none, none, none⟩
        (fun _ => .httpError 404 "nope")).1.body = "nope" ∧
    (∀ v, ("Access-Control-Allow-Origin", v) ∉
      (handler (some "K") ⟨some "discover", some "878", none, none, none⟩
        (fun _ => .httpError 404 "nope")).1.headers) :=
  upstream_passthrough "K" (by decide)
    ⟨some "discover", some "878", none, none, none⟩ 404 "nope" (by decide)

/-- Claim C7: a Discover query synthesizes with_genres from genre (empty
when absent), sort_by from sort_by (popularity.desc when absent) and
page 1, and on upstream success returns 200 with the decoded body and
headers including Access-Control-Allow-Origin star. -/
theorem discover_dispatch (k : String) (hk : k ≠ "") (qs : QS)
    (hd : jsOr qs.type "discover" = "discover") (B : String)
    (u : String → UpstreamResult)
    (hu : u (discoverUrl k (jsOr qs.genre "") (jsOr qs.sort_by "popularity.desc")) =
      .ok B) :
    handler (some k) qs u =
      (⟨200, [("Content-Type", "application/json"),
              ("Access-Control-Allow-Origin", "*")], B⟩,
       [discoverUrl k (jsOr qs.genre "") (jsOr qs.sort_by "popularity.desc")]) := by
  simp [handler, handlerWithKey, jsTruthyS, hk, hd, callUpstream, hu]

/-- Claim C7 witness: the end-to-end example with genre 878 and a stub
upstream returning a results object. -/
theorem discover_dispatch_witness :
    handler (some "K") ⟨some "discover", some "878", none, none, none⟩
        (fun _ => .ok "\x7b\"results\":[\x7b\"id\":1,\"title\":\"X\"\x7d]\x7d") =
      (⟨200, [("Content-Type", "application/json"),
              ("Access-Control-Allow-Origin", "*")],
        "\x7b\"results\":[\x7b\"id\":1,\"title\":\"X\"\x7d]\x7d"⟩,
       [discoverUrl "K" "878" "popularity.desc"]) :=
  discover_dispatch "K" (by decide)
    ⟨some "discover", some "878", none, none, none⟩ rfl
    "\x7b\"results\":[\x7b\"id\":1,\"title\":\"X\"\x7d]\x7d" _ rfl

/-- Claim C9: a request with no type parameter at all is dispatched as a
Discover query (the handler defaults type to discover and fetches the
discover upstream URL), while only a present, non-empty and unrecognized
type value yields the 400 Unknown type response with zero upstream
calls. -/
theorem missing_type_defaults_to_discover (k : String) (hk : k ≠ "")
    (qs : QS) (u : String → UpstreamResult) :
    (qs.type = none →
      handler (some k) qs u =
        handler (some k) ⟨some "discover", qs.genre, qs.limit, qs.movieId, qs.sort_by⟩ u ∧
      (handler (some k) qs u).2 =
        [discoverUrl k (jsOr qs.genre "") (jsOr qs.sort_by "popularity.desc")]) ∧
    (∀ t, qs.type = some t → t ≠ "" → t ≠ "discover" → t ≠ "videos" →
      t ≠ "movie" →
      handler (some k) qs u = (⟨400, [], jsonErr "Unknown type"⟩, [])) := by
  constructor
  · intro h
    constructor
    · simp [handler, handlerWithKey, jsOr, h]
    · rw [handler_some k hk]
      have hd1 : jsOr qs.type "discover" = "discover" := by rw [h]; rfl
      simp only [handlerWithKey, hd1, if_pos rfl]
      exact callUpstream_snd _ _ _
  · intro t ht ht0 h1 h2 h3
    rw [handler_some k hk]
    have hd1 : jsOr qs.type "discover" = t := by
      rw [ht]; simp [jsOr, ht0]
    simp [handlerWithKey, hd1, h1, h2, h3]

/-- Claim C9 witness: a concrete query with type absent fetches the
discover URL, and a concrete unrecognized type gets 400. -/
theorem missing_type_defaults_to_discover_witness :
    (handler (some "K") ⟨none, some "18", none, none, none⟩
        (fun _ => .ok "x")).2 =
      [discoverUrl "K" "18" "popularity.desc"] ∧
    handler (some "K") ⟨some "banana", none, none, none, none⟩
        (fun _ => .ok "x") =
      (⟨400, [], jsonErr "Unknown type"⟩, []) :=
  ⟨((missing_type_defaults_to_discover "K" (by decide)
      ⟨none, some "18", none, none, none⟩ (fun _ => .ok "x")).1 rfl).2,
   (missing_type_defaults_to_discover "K" (by decide)
      ⟨some "banana", none, none, none, none⟩ (fun _ => .ok "x")).2
      "banana" rfl (by decide) (by decide) (by decide) (by decide)⟩

/-! ## Client-side data model (src/script.js)

Movies arrive from the backend as partial objects; videos carry a site,
a type and a key.  A fetch through tmdbFetch either resolves with a
decoded object whose results field may be absent, or rejects (non-ok
status or network error). -/

/-- A movie item as used by script.js; every field except id may be
absent, and absent-or-empty strings are falsy. -/
structure Movie where
  id : Nat
  title : Option String := none
  name : Option String := none
  overview : Option String := none
  poster_path : Option String := none
  backdrop_path : Option String := none
deriving DecidableEq, Repr

/-- A video entry from the videos endpoint; only the three fields the
client reads. -/
structure Video where
  site : String
  type : String
  key : String
deriving DecidableEq, Repr

/-- Outcome of a tmdbFetch of the videos endpoint: ok with the decoded
object's optional results list, or a rejection message (non-ok response
or network failure). -/
abbrev FetchOutcome := Except String (Option (List Video))

/-- The image CDN base used for posters and backdrops. -/
def IMAGE_BASE : String := "https://image.tmdb.org/t/p/w500"

/-- The YT_EMBED URL builder of script.js. -/
def ytEmbed (key params : String) : String :=
  "https://www.youtube.com/embed/" ++ key ++
    "?rel=0&enablejsapi=1&playsinline=1&" ++ params

/-! ## Preview selection rule (script.js lines 81 and 126) -/

/-- The hero acceptance predicate of setHero: YouTube site and type
Trailer or Teaser. -/
def heroAccept (v : Video) : Bool :=
  v.site == "YouTube" && (v.type == "Trailer" || v.type == "Teaser")

/-- The card hover-preview acceptance predicate of createPosterCard:
YouTube site and type Trailer, Teaser or Clip. -/
def cardAccept (v : Video) : Bool :=
  v.site == "YouTube" &&
    (v.type == "Trailer" || v.type == "Teaser" || v.type == "Clip")

/-- Array.prototype.find with the hero predicate: first match or none. -/
def heroPick (l : List Video) : Option Video := l.find? heroAccept

/-- Array.prototype.find with the card predicate: first match or none. -/
def cardPick (l : List Video) : Option Video := l.find? cardAccept

/-- The media list of the specification's selection example. -/
def exampleMedia : List Video :=
  [⟨"Vimeo", "Trailer", "k1"⟩, ⟨"YouTube", "Teaser", "k2"⟩,
   ⟨"YouTube", "Trailer", "k3"⟩]

/-- Claim C6: selection picks the first list element on YouTube whose
type is in the accepted set (Trailer and Teaser for the hero; Trailer,
Teaser and Clip for card hover); on the example list the hero picks the
Teaser and not the later Trailer; a Clip is picked by the card rule but
not the hero rule; and absence of any match yields none rather than an
error. -/
theorem preview_selection_rule :
    heroPick exampleMedia = some ⟨"YouTube", "Teaser", "k2"⟩ ∧
    heroPick exampleMedia ≠ some ⟨"YouTube", "Trailer", "k3"⟩ ∧
    cardPick [⟨"YouTube", "Clip", "c"⟩] = some ⟨"YouTube", "Clip", "c"⟩ ∧
    heroPick [⟨"YouTube", "Clip", "c"⟩] = none ∧
    (∀ l : List Video, heroPick l = none ↔ ∀ v ∈ l, heroAccept v = false) ∧
    (∀ l1 l2 : List Video, ∀ v : Video,
      (∀ w ∈ l1, heroAccept w = false) → heroAccept v = true →
      heroPick (l1 ++ v :: l2) = some v) := by
  refine ⟨by decide, by decide, by decide, by decide, ?_, ?_⟩
  · intro l
    simp [heroPick, List.find?_eq_none]
  · intro l1 l2 v hnone hv
    induction l1 with
    | nil => simp [heroPick, List.find?_cons_of_pos, hv]
    | cons a as ih =>
        have ha : heroAccept a = false := hnone a (List.mem_cons_self a as)
        have hrest : ∀ w ∈ as, heroAccept w = false := fun w hw =>
          hnone w (List.mem_cons_of_mem a hw)
        simpa [heroPick, List.find?_cons_of_neg, ha] using ih hrest

/-- Claim C6 witness: the first-match conjunct applied to the example
list split around the Teaser. -/
theorem preview_selection_rule_witness :
    heroPick ([⟨"Vimeo", "Trailer", "k1"⟩] ++
        (⟨"YouTube", "Teaser", "k2"⟩ : Video) ::
          [⟨"YouTube", "Trailer", "k3"⟩]) =
      some ⟨"YouTube", "Teaser", "k2"⟩ :=
  preview_selection_rule.2.2.2.2.2 [⟨"Vimeo", "Trailer", "k1"⟩]
    [⟨"YouTube", "Trailer", "k3"⟩] ⟨"YouTube", "Teaser", "k2"⟩
    (by decide) (by decide)

/-! ## Row Loader (makeRow and the init loop of script.js)

Each configured genre row independently fetches one discovery page;
makeRow catches its own fetch failure and writes a local fallback
message into the row's track, so the init loop never sees an
exception and always produces one row per genre. -/

/-- The static genre configuration of script.js. -/
structure Genre where
  id : Nat
  name : String
deriving DecidableEq, Repr

/-- The GENRES list of script.js. -/
def GENRES : List Genre :=
  [⟨878, "AI"⟩, ⟨528, "Food"⟩, ⟨18, "Drama"⟩, ⟨27, "Horror"⟩, ⟨35, "Comedy"⟩]

/-- The poster card DOM produced by createPosterCard: data-id, the img
src (empty when poster_path is falsy) and the title text (title or
name, JS-or). -/
structure PosterCard where
  dataId : Nat
  imgSrc : String
  titleText : String
deriving DecidableEq, Repr

/-- createPosterCard of script.js, restricted to the attributes it sets
(the event listeners it installs are modelled by the scheduler below). -/
def createPosterCard (movie : Movie) : PosterCard :=
  { dataId := movie.id
    imgSrc := if jsTruthyS movie.poster_path then
        IMAGE_BASE ++ movie.poster_path.getD "" else ""
    titleText := jsOr movie.title (jsOr movie.name "") }

/-- Outcome of one row's discovery fetch: the decoded object's optional
results list, or a rejection. -/
abbrev RowOutcome := Except String (Option (List Movie))

/-- What a row's track ends up holding: the appended poster cards, or
the local failure message. -/
inductive RowTrack where
  | cards (cs : List PosterCard)
  | fallback (msg : String)
deriving DecidableEq, Repr

/-- A rendered row: the heading text and the track contents. -/
structure RowView where
  genreName : String
  track : RowTrack
deriving DecidableEq, Repr

/-- makeRow of script.js for one genre, as a function of that row's own
fetch outcome: on success the (possibly absent) results are mapped to
poster cards; on failure the track holds the local message
Failed to load name. -/
def makeRowView (g : Genre) (r : RowOutcome) : RowView :=
  match r with
  | .ok results =>
      { genreName := g.name
        track := .cards ((results.getD []).map createPosterCard) }
  | .error _ =>
      { genreName := g.name
        track := .fallback ("Failed to load " ++ g.name) }

/-- The row-creation loop of init: one row per configured genre, each
built from that genre's own fetch outcome only. -/
def loadRows (o : Genre → RowOutcome) : List RowView :=
  GENRES.map (fun g => makeRowView g (o g))

/-- Claim C8: row loading is isolated per bucket: for every assignment
of fetch outcomes, every configured genre gets exactly one row; the row
at each position is a function of that genre's own outcome only (so no
other bucket's failure can abort or change it); a failing bucket alone
renders its local fallback message; a succeeding bucket renders its
items as poster cards. -/
theorem row_isolation (o : Genre → RowOutcome) :
    (loadRows o).length = GENRES.length ∧
    (∀ i : Nat, (loadRows o)[i]? =
      (GENRES[i]?).map (fun g => makeRowView g (o g))) ∧
    (∀ o' : Genre → RowOutcome, ∀ g : Genre, o g = o' g →
      makeRowView g (o g) = makeRowView g (o' g)) ∧
    (∀ g msg, o g = .error msg →
      makeRowView g (o g) = ⟨g.name, .fallback ("Failed to load " ++ g.name)⟩) ∧
    (∀ g results, o g = .ok results →
      makeRowView g (o g) =
        ⟨g.name, .cards ((results.getD []).map createPosterCard)⟩) := by
  refine ⟨by simp [loadRows], ?_, ?_, ?_, ?_⟩
  · intro i
    simp [loadRows, List.getElem?_map]
  · intro o' g h
    rw [h]
  · intro g msg h
    simp [makeRowView, h]
  · intro g results h
    simp [makeRowView, h]

/-- A sample movie for the isolation scenario. -/
def movieX : Movie := ⟨1, some "X", none, none, none, none⟩

/-- A sample outcome assignment: the Food bucket (genre 528) fails, all
other buckets succeed with one movie. -/
def rowOutcomeEx : Genre → RowOutcome := fun g =>
  if g.id = 528 then .error "TMDb function error" else .ok (some [movieX])

/-- Claim C8 witness: the concrete scenario where the Food bucket's
fetch fails while the AI bucket succeeds with one movie: Food alone
falls back, AI renders its card. -/
theorem row_isolation_witness :
    makeRowView ⟨528, "Food"⟩ (rowOutcomeEx ⟨528, "Food"⟩) =
      ⟨"Food", .fallback "Failed to load Food"⟩ ∧
    makeRowView ⟨878, "AI"⟩ (rowOutcomeEx ⟨878, "AI"⟩) =
      ⟨"AI", .cards [createPosterCard movieX]⟩ :=
  ⟨(row_isolation rowOutcomeEx).2.2.2.1 ⟨528, "Food"⟩
      "TMDb function error" rfl,
   (row_isolation rowOutcomeEx).2.2.2.2 ⟨878, "AI"⟩ (some [movieX]) rfl⟩

/-! ## Hero Controller (setHero of script.js)

setHero first writes the title and overview synchronously, then fetches
the videos for the item.  On a resolved fetch it clears the hero
container and mounts either the selected trailer iframe or a static
background poster built from backdrop_path, else poster_path, else the
empty string.  The catch branch only logs: on a rejected fetch nothing
further is written to the container.  The invocation is modelled as the
ordered list of DOM effects it performs. -/

/-- One DOM effect of a setHero invocation, in order of occurrence. -/
inductive HeroEvent where
  | setTitle (s : String)
  | setOverview (s : String)
  | fetchVideos (movieId : Nat)
  | clearContainer
  | mountIframe (src : String)
  | mountPoster (backgroundImage : String)
deriving DecidableEq, Repr

/-- The background-image value of the static hero fallback: backdrop if
truthy, else poster if truthy, else empty. -/
def heroFallbackBg (movie : Movie) : String :=
  if jsTruthyS movie.backdrop_path then
    "url(" ++ IMAGE_BASE ++ movie.backdrop_path.getD "" ++ ")"
  else if jsTruthyS movie.poster_path then
    "url(" ++ IMAGE_BASE ++ movie.poster_path.getD "" ++ ")"
  else ""

/-- setHero of script.js as its ordered effect trace, as a function of
the item and of the outcome of the videos fetch. -/
def setHeroTrace (movie : Movie) (r : FetchOutcome) : List HeroEvent :=
  [.setTitle (jsOr movie.title (jsOr movie.name "Featured")),
   .setOverview (jsOr movie.overview ""),
   .fetchVideos movie.id] ++
  match r with
  | .error _ => []
  | .ok results =>
      .clearContainer ::
      (match heroPick (results.getD []) with
       | some v =>
           [.mountIframe (ytEmbed v.key
             ("autoplay=1&mute=1&controls=1&loop=1&playlist=" ++ v.key))]
       | none => [.mountPoster (heroFallbackBg movie)])

/-- Does an effect mount something into the hero container? -/
def isMountEvent : HeroEvent → Bool
  | .mountIframe _ => true
  | .mountPoster _ => true
  | _ => false

/-- Claim C2 counterexample: when the videos fetch fails, setHero
mounts nothing at all — the catch branch only logs — so the claimed
static-image fallback on fetch failure does not appear, even for an
item with a backdrop available. -/
theorem setHero_failure_counterexample :
    (setHeroTrace ⟨7, some "X", none, some "o", some "/p.jpg", some "/b.jpg"⟩
        (.error "TMDb function error")).any isMountEvent = false := by
  decide

/-- Claim C2 (amended): setHero always first sets the title (title,
else name, else Featured) and the overview synchronously, before the
videos fetch; when the fetch succeeds and no video matches the hero
selection rule, it clears the container and mounts the static image
fallback built from backdrop, else poster, else empty; but when the
fetch fails, nothing is mounted — the container is left as it was and
only the synchronously written title and overview change. -/
theorem setHero_sync_and_fallback (movie : Movie) (r : FetchOutcome) :
    (setHeroTrace movie r).take 3 =
      [.setTitle (jsOr movie.title (jsOr movie.name "Featured")),
       .setOverview (jsOr movie.overview ""),
       .fetchVideos movie.id] ∧
    (∀ results, r = .ok results → heroPick (results.getD []) = none →
      setHeroTrace movie r =
        [.setTitle (jsOr movie.title (jsOr movie.name "Featured")),
         .setOverview (jsOr movie.overview ""),
         .fetchVideos movie.id, .clearContainer,
         .mountPoster (heroFallbackBg movie)]) ∧
    (∀ msg, r = .error msg →
      (setHeroTrace movie r).any isMountEvent = false) := by
  refine ⟨?_, ?_, ?_⟩
  · rcases r with m | results
    · rfl
    · simp only [setHeroTrace]
      rcases heroPick (results.getD []) <;> rfl
  · intro results hr hnone
    subst hr
    simp [setHeroTrace, hnone]
  · intro msg hr
    subst hr
    rfl

/-- Claim C2 witness: a concrete item whose fetch resolves with an
empty video list gets the full no-match trace ending in the static
poster fallback. -/
theorem setHero_sync_and_fallback_witness :
    setHeroTrace ⟨7, some "X", none, some "o", some "/p.jpg", none⟩
        (.ok (some [])) =
      [.setTitle "X", .setOverview "o", .fetchVideos 7, .clearContainer,
       .mountPoster ("url(" ++ IMAGE_BASE ++ "/p.jpg" ++ ")")] :=
  (setHero_sync_and_fallback ⟨7, some "X", none, some "o", some "/p.jpg", none⟩
      (.ok (some []))).2.1 (some []) rfl rfl

/-! ## Preview Scheduler (hover handlers of createPosterCard)

Per card, mouseenter arms a 350ms debounce timer; when the timer fires
the callback appends an empty preview frame to the card and starts the
videos fetch; when that fetch settles, the callback writes the player
iframe or a textual notice into the frame it created — whether or not
that frame is still attached to the card.  mouseleave clears a pending
timer and removes the attached preview frame, so a result arriving
after mouseleave only writes into a detached node and nothing appears
in the card.

The state records whether the debounce timer is armed, the most recent
hover session (its frame and whether the frame is still attached to the
card) and how many fetches have been issued. -/

/-- What the fetch callback writes into its preview frame. -/
inductive FrameContent where
  | empty
  | playerIframe (src : String)
  | notAvailableMsg
  | failedMsg
deriving DecidableEq, Repr

/-- The hover session created by a fired debounce timer: absent, frame
appended with the fetch awaited, or fetch settled with its content
written into the frame.  frameAttached records whether the frame is
still a child of the card (mouseleave detaches it). -/
inductive HoverSession where
  | noSession
  | awaitingFetch (frameAttached : Bool)
  | fetchDone (frameAttached : Bool) (content : FrameContent)
deriving DecidableEq, Repr

/-- The per-card scheduler state: previewTimer armed and not yet fired,
the current hover session, and the number of preview fetches issued. -/
structure CardState where
  timerArmed : Bool
  session : HoverSession
  fetchCount : Nat
deriving DecidableEq, Repr

/-- The state of a freshly created card: previewTimer null, no frame,
no fetch issued. -/
def initCard : CardState := ⟨false, .noSession, 0⟩

/-- The events a card's scheduler reacts to: the two pointer handlers,
the debounce timer firing, and the settling of an issued fetch. -/
inductive CardEvent where
  | mouseenter
  | timerFire
  | mouseleave
  | fetchResolve (r : FetchOutcome)

/-- What the timer callback writes into its frame once the fetch
settles: the embedded player for the first card-accepted video, the
Preview not available notice when nothing matches, or the Preview
failed notice when the fetch rejected. -/
def frameContentOf (r : FetchOutcome) : FrameContent :=
  match r with
  | .error _ => .failedMsg
  | .ok results =>
      match cardPick (results.getD []) with
      | some v => .playerIframe (ytEmbed v.key
          ("autoplay=1&mute=1&controls=0&loop=1&playlist=" ++ v.key))
      | none => .notAvailableMsg

/-- mouseleave detaches the frame the card currently contains; a frame
already detached stays detached. -/
def detachSession : HoverSession → HoverSession
  | .noSession => .noSession
  | .awaitingFetch _ => .awaitingFetch false
  | .fetchDone _ c => .fetchDone false c

/-- One step of the per-card scheduler, from the handlers installed by
createPosterCard: mouseenter arms the debounce timer; a fire of an
armed timer appends the frame and issues the fetch; mouseleave clears
any pending timer and removes the attached frame; a settling fetch
writes its content into the frame of its own session, attached or
not. -/
def step (s : CardState) : CardEvent → CardState
  | .mouseenter => { s with timerArmed := true }
  | .timerFire =>
      if s.timerArmed then
        { timerArmed := false, session := .awaitingFetch true,
          fetchCount := s.fetchCount + 1 }
      else s
  | .mouseleave =>
      { s with timerArmed := false, session := detachSession s.session }
  | .fetchResolve r =>
      match s.session with
      | .awaitingFetch att =>
          { s with session := .fetchDone att (frameContentOf r) }
      | _ => s

/-- Run a sequence of events from a state. -/
def runEvents (s : CardState) (es : List CardEvent) : CardState :=
  es.foldl step s

/-- Is a preview frame currently attached to (mounted in) the card? -/
def mountedInCard (s : CardState) : Bool :=
  match s.session with
  | .noSession => false
  | .awaitingFetch att => att
  | .fetchDone att _ => att

/-- The Idle state of the specification: no pending debounce timer and
no preview surface mounted in the card. -/
def isIdle (s : CardState) : Bool :=
  !s.timerArmed && !mountedInCard s

/-- The hover that is abandoned before the debounce delay elapses. -/
def leaveBeforeTimer : CardState :=
  runEvents initCard [.mouseenter, .mouseleave]

/-- The hover whose fetch settles only after the pointer has left. -/
def lateResolve (r : FetchOutcome) : CardState :=
  runEvents initCard [.mouseenter, .timerFire, .mouseleave, .fetchResolve r]

/-- Claim C1: the per-card preview scheduler race properties: if the
pointer leaves before the 350ms debounce timer fires, no preview fetch
is ever issued for that hover (the cancelled timer firing later is a
no-op) and the card is Idle; and if the pointer leaves while the fetch
is in flight, then whatever the fetch resolves to, no preview surface
is mounted in the card and the card is Idle — the late result only
reaches the detached frame. -/
theorem preview_scheduler_race :
    (leaveBeforeTimer.fetchCount = 0 ∧
     step leaveBeforeTimer .timerFire = leaveBeforeTimer ∧
     (step leaveBeforeTimer .timerFire).fetchCount = 0 ∧
     isIdle leaveBeforeTimer = true) ∧
    (∀ r : FetchOutcome,
      mountedInCard (lateResolve r) = false ∧
      isIdle (lateResolve r) = true) := by
  refine ⟨⟨rfl, rfl, rfl, rfl⟩, ?_⟩
  intro r
  exact ⟨rfl, rfl⟩
